import Mathlib

/-!
Verification of the chapter scripts of the `pgcurious/python` tutorial
repository against its natural-language specification.

Each namespace `ChNN` shallowly embeds, in Lean, the functions and the
module-level effects of the corresponding `book/code/chNN_*.py` script
(or, for `Exercises`, of the `book/exercises/` scripts).  Pure Python
functions become Lean functions; `raise` becomes `Except`; the file-system
and environment side effects of a script become explicit event lists folded
over an explicit state.  Python `int` is embedded as `Int`, Python numbers
under true division as `ℚ`.
-/

namespace PyTutorial

/-- The kinds of built-in Python exceptions raised by the embedded code,
each carrying its message string. -/
inductive PyExc where
  | zeroDivisionError (msg : String)
  | indexError (msg : String)
  | keyError (msg : String)
  | valueError (msg : String)
  | typeError (msg : String)
  | assertionError (msg : String)
  deriving Repr, DecidableEq

namespace Ch11

/-- `add` from `book/code/ch11_testing.py` lines 18-20:
`return a + b` (applied to Python ints in the inlined assertions). -/
def add (a b : Int) : Int := a + b

/-- `divide` from `book/code/ch11_testing.py` lines 23-27:
raises `ValueError("Cannot divide by zero")` when `b == 0`, else returns
the true-division quotient `a / b`. -/
def divide (a b : ℚ) : Except PyExc ℚ :=
  if b = 0 then .error (.valueError "Cannot divide by zero")
  else .ok (a / b)

end Ch11

namespace Ch04

/-- `Vector` from `book/code/ch04_oop.py` lines 87-105 (fields `x`, `y`).
Python numbers are embedded as `ℚ`. -/
structure Vector where
  x : ℚ
  y : ℚ
  deriving Repr, DecidableEq

/-- `Vector.__mul__` (lines 98-99): `Vector(self.x * scalar, self.y * scalar)`. -/
def Vector.mul (self : Vector) (scalar : ℚ) : Vector :=
  ⟨self.x * scalar, self.y * scalar⟩

/-- `Vector.__rmul__` (lines 101-102): `return self.__mul__(scalar)`. -/
def Vector.rmul (self : Vector) (scalar : ℚ) : Vector :=
  self.mul scalar

/-- The classes of the multiple-inheritance diamond of
`book/code/ch04_oop.py` lines 234-251, together with `object`, the
implicit root of every Python class hierarchy. -/
inductive PyClass where
  | A | B | C | D | object
  deriving Repr, DecidableEq

/-- The base-class lists exactly as declared in the source:
`class A:` (implicitly `(object)`), `class B(A):`, `class C(A):`,
`class D(B, C):`. -/
def bases : PyClass → List PyClass
  | .A => [.object]
  | .B => [.A]
  | .C => [.A]
  | .D => [.B, .C]
  | .object => []

/-- One candidate head is good for the C3 merge when it appears in the
tail of none of the remaining linearizations. -/
def goodHead (lists : List (List PyClass)) (h : PyClass) : Bool :=
  lists.all (fun l => !(l.tail.contains h))

/-- The first good head among the heads of the remaining lists, in order:
this is the class CPython's C3 linearization appends next. -/
def selectHead (lists : List (List PyClass)) : Option PyClass :=
  (lists.filterMap List.head?).find? (goodHead lists)

/-- Remove a chosen head from every remaining list and drop the lists
that become empty. -/
def mergeStep (lists : List (List PyClass)) (h : PyClass) : List (List PyClass) :=
  (lists.map (fun l => l.filter (fun c => c ≠ h))).filter (fun l => !l.isEmpty)

/-- The C3 merge of a family of linearizations, with explicit fuel
(CPython raises `TypeError` when no good head exists; here that and fuel
exhaustion yield `none`). -/
def c3merge : Nat → List (List PyClass) → Option (List PyClass)
  | 0, _ => none
  | fuel + 1, lists =>
    let lists := lists.filter (fun l => !l.isEmpty)
    if lists.isEmpty then some []
    else
      match selectHead lists with
      | none => none
      | some h => (c3merge fuel (mergeStep lists h)).map (fun rest => h :: rest)

/-- `mro(C) = [C] ++ merge(mro(B1), ..., mro(Bn), [B1, ..., Bn])`, the C3
linearization CPython computes for `C.__mro__`, with fuel for the nested
recursion through the base classes. -/
def mroFuel : Nat → PyClass → Option (List PyClass)
  | 0, _ => none
  | fuel + 1, c =>
    match (bases c).mapM (mroFuel fuel) with
    | none => none
    | some parentMros =>
      (c3merge (fuel + 1) (parentMros ++ [bases c])).map (fun m => c :: m)

/-- `C.__mro__` for the diamond's classes (fuel 8 exceeds the hierarchy
depth, so the computation always completes). -/
def mro (c : PyClass) : Option (List PyClass) := mroFuel 8 c

/-- Which classes define `method` in the source: `A`, `B`, `C` and `D`
each do (lines 234-251); `object` does not. -/
def definesMethod : PyClass → Bool
  | .object => false
  | _ => true

/-- The literal string each class's `method` contributes before any
`super()` result: `"A"` returns no arrow (line 236), the others prepend
their name and an arrow (lines 241, 246, 251). -/
def methodOwnPart : PyClass → String
  | .A => "A"
  | .B => "B -> "
  | .C => "C -> "
  | .D => "D -> "
  | .object => ""

/-- Whether the class's `method` body ends in `+ super().method()`:
true for `B`, `C`, `D`, false for `A` (which returns `"A"` outright). -/
def callsSuper : PyClass → Bool
  | .B => true
  | .C => true
  | .D => true
  | _ => false

/-- Dispatch `method` along a (suffix of an) MRO, exactly as CPython
does: the first class in the list defining `method` runs its body, and a
`super().method()` call inside it continues the search in the rest of
the list.  `none` models an `AttributeError` when no class defines it. -/
def dispatch : List PyClass → Option String
  | [] => none
  | c :: rest =>
    if definesMethod c then
      if callsSuper c then (dispatch rest).map (fun s => methodOwnPart c ++ s)
      else some (methodOwnPart c)
    else dispatch rest

/-- `D().method()`: dispatch along `D.__mro__`. -/
def D_method_result : Option String := (mro .D).bind dispatch

/-- The source-line span (first line, last line) of each of the four
class definitions in `book/code/ch04_oop.py`: `A` at 234-236, `B` at
239-241, `C` at 244-246, `D` at 249-251. -/
def classDefSpan : PyClass → Nat × Nat
  | .A => (234, 236)
  | .B => (239, 241)
  | .C => (244, 246)
  | .D => (249, 251)
  | .object => (0, 0)

/-- Number of source lines a class definition occupies. -/
def classDefLineCount (c : PyClass) : Nat :=
  (classDefSpan c).2 - (classDefSpan c).1 + 1

end Ch04

/-- A Python value as manipulated by the chapter-7 demonstrations:
an `int`, a `float` (embedded as `ℚ`) or a `str`. -/
inductive PyVal where
  | intV (n : Int)
  | floatV (q : ℚ)
  | strV (s : String)
  deriving Repr, DecidableEq

/-- Drop the leading whitespace characters of a character list
(the embedding works on `String.data` so that every string operation
reduces structurally). -/
def dropLeadingSpaces : List Char → List Char
  | [] => []
  | c :: cs => if c == ' ' then dropLeadingSpaces cs else c :: cs

/-- Whether `s` starts with `p`, on the underlying character lists. -/
def strStartsWith (s p : String) : Bool :=
  p.data.isPrefixOf s.data

/-- Whether a character is a decimal digit. -/
def isDigitChar (c : Char) : Bool :=
  48 ≤ c.toNat && c.toNat ≤ 57

/-- The value of a non-empty all-digit character list, accumulated left
to right; `none` if any character is not a digit or the list is empty. -/
def digitsVal : List Char → Nat → Option Nat
  | [], _ => none
  | [c], acc => if isDigitChar c then some (acc * 10 + (c.toNat - 48)) else none
  | c :: cs, acc =>
    if isDigitChar c then digitsVal cs (acc * 10 + (c.toNat - 48)) else none

namespace Ch07

/-- Python `a / b` on ints (true division): raises `ZeroDivisionError`
with CPython's message when `b == 0`, else produces a float. -/
def pyDivInt (a b : Int) : Except PyExc PyVal :=
  if b = 0 then .error (.zeroDivisionError "division by zero")
  else .ok (.floatV ((a : ℚ) / (b : ℚ)))

/-- Python list subscription `xs[i]`: a negative index counts from the
end; an index outside the list raises `IndexError` with CPython's
message. -/
def pyIndex (xs : List PyVal) (i : Int) : Except PyExc PyVal :=
  let j : Int := if i < 0 then i + xs.length else i
  if j < 0 then .error (.indexError "list index out of range")
  else
    match xs.get? j.toNat with
    | some v => .ok v
    | none => .error (.indexError "list index out of range")

/-- Python dict subscription `d[k]` for string keys: a missing key
raises `KeyError` (CPython's message is the repr of the key; the kind is
what the demonstration pairs on). -/
def pyDictGet (d : List (String × PyVal)) (k : String) : Except PyExc PyVal :=
  match d.find? (fun p => p.1 == k) with
  | some p => .ok p.2
  | none => .error (.keyError k)

/-- Python `int(s)` on a string: strips surrounding whitespace and
parses an optionally signed decimal literal, raising `ValueError`
otherwise (CPython's message quotes the literal; the kind is what the
demonstration pairs on). -/
def pyIntOfString (s : String) : Except PyExc PyVal :=
  let stripped :=
    (dropLeadingSpaces ((dropLeadingSpaces s.data.reverse).reverse))
  let parsed : Option Int :=
    match stripped with
    | '+' :: rest => (digitsVal rest 0).map Int.ofNat
    | '-' :: rest => (digitsVal rest 0).map (fun n => -(n : Int))
    | cs => (digitsVal cs 0).map Int.ofNat
  match parsed with
  | some n => .ok (.intV n)
  | none => .error (.valueError ("invalid literal for int with base 10: " ++ s))

/-- Python `a + b` on the value kinds the demonstrations use:
int/float addition and string concatenation succeed; mixing a `str`
with a number raises `TypeError`, as does any other mismatch. -/
def pyAdd (a b : PyVal) : Except PyExc PyVal :=
  match a, b with
  | .intV m, .intV n => .ok (.intV (m + n))
  | .intV m, .floatV q => .ok (.floatV (m + q))
  | .floatV q, .intV n => .ok (.floatV (q + n))
  | .floatV p, .floatV q => .ok (.floatV (p + q))
  | .strV s, .strV t => .ok (.strV (s ++ t))
  | .strV _, _ => .error (.typeError "can only concatenate str to str")
  | _, _ => .error (.typeError "unsupported operand types for +")

/-- The five `(name, thunk)` pairs of `demonstrate_exceptions`
(`book/code/ch07_errors.py` lines 22-28): `1 / 0`, `[1, 2, 3][10]`,
an empty dict subscripted at `"missing"`, `int("abc")`, `"text" + 5`. -/
def exceptionPairs : List (String × (Unit → Except PyExc PyVal)) :=
  [("ZeroDivisionError", fun _ => pyDivInt 1 0),
   ("IndexError", fun _ => pyIndex [.intV 1, .intV 2, .intV 3] 10),
   ("KeyError", fun _ => pyDictGet [] "missing"),
   ("ValueError", fun _ => pyIntOfString "abc"),
   ("TypeError", fun _ => pyAdd (.strV "text") (.intV 5))]

/-- Outcome of one iteration of the loop in `demonstrate_exceptions`
(lines 30-34): `except Exception` catches any raised exception (every
exception the thunks can raise derives from `Exception`), and a thunk
that returned normally would leave the `except` clause unentered. -/
inductive IterOutcome where
  | caught (name : String) (e : PyExc)
  | noExc (name : String)
  deriving Repr, DecidableEq

/-- `demonstrate_exceptions` (lines 20-34): run each thunk under
`try`/`except Exception`; the function body raises nothing itself, so
its result is the list of per-iteration outcomes. -/
def demonstrate_exceptions : List IterOutcome :=
  exceptionPairs.map (fun p =>
    match p.2 () with
    | .error e => .caught p.1 e
    | .ok _ => .noExc p.1)

/-- The name of the class of an embedded exception, as CPython's
`type(e).__name__` would render it. -/
def excClassName : PyExc → String
  | .zeroDivisionError _ => "ZeroDivisionError"
  | .indexError _ => "IndexError"
  | .keyError _ => "KeyError"
  | .valueError _ => "ValueError"
  | .typeError _ => "TypeError"
  | .assertionError _ => "AssertionError"

/-- `InsufficientFundsError` (lines 100-108): carries the `balance` and
`amount` it was constructed from. -/
structure InsufficientFundsError where
  balance : ℚ
  amount : ℚ
  deriving Repr, DecidableEq

/-- `BankAccount` (lines 111-113): the single `balance` field set by
`__init__`.  Python numbers are embedded as `ℚ`. -/
structure BankAccount where
  balance : ℚ
  deriving Repr, DecidableEq

/-- `BankAccount.withdraw` (lines 115-119): if `amount > self.balance`
it raises `InsufficientFundsError(self.balance, amount)` — the raise
precedes the mutation, so the account is returned unchanged; otherwise
it subtracts and returns `amount`.  The pair is (result, account after
the call). -/
def BankAccount.withdraw (self : BankAccount) (amount : ℚ) :
    Except InsufficientFundsError ℚ × BankAccount :=
  if amount > self.balance then
    (.error ⟨self.balance, amount⟩, self)
  else
    (.ok amount, ⟨self.balance - amount⟩)

/-- Whether a Python value `isinstance(n, (int, float))`. -/
def isNumber : PyVal → Bool
  | .intV _ => true
  | .floatV _ => true
  | .strV _ => false

/-- The numeric value of an `int` or `float`; the `str` branch is never
reached by `calculate_average`, whose second assertion guards it. -/
def numVal : PyVal → ℚ
  | .intV n => n
  | .floatV q => q
  | .strV _ => 0

/-- `calculate_average` (`book/code/ch07_errors.py` lines 185-188): the
two `assert` statements in order, then `sum(numbers) / len(numbers)`.
A failing assert raises `AssertionError` with the given message and the
statements after it do not run. -/
def calculate_average (numbers : List PyVal) : Except PyExc ℚ :=
  if !(numbers.length > 0 : Bool) then
    .error (.assertionError "List cannot be empty")
  else if !(numbers.all isNumber) then
    .error (.assertionError "All items must be numbers")
  else
    .ok ((numbers.map numVal).sum / (numbers.length : ℚ))

end Ch07

namespace Ch08

/-- The iterator class `CountUp` of `book/code/ch08_iterators.py`
lines 30-43: fields `current` and `end` set by `__init__` (the second
field is named `stop` here because `end` is a Lean keyword). -/
structure CountUp where
  current : Int
  stop : Int
  deriving Repr, DecidableEq

/-- `CountUp.__next__` (lines 38-43): raise `StopIteration` (here
`none`) when `self.current >= self.end`; otherwise return the current
value and increment `self.current`. -/
def CountUp.next (self : CountUp) : Option (Int × CountUp) :=
  if self.current ≥ self.stop then none
  else some (self.current, { self with current := self.current + 1 })

/-- Fully iterating a `CountUp` (what `list(CountUp(start, end))` does):
keep calling `__next__` until `StopIteration`, collecting the yielded
values.  `CountUp_toList_iterates_next` below certifies that this
function is exactly that drain of `CountUp.next`. -/
def CountUp.toList (self : CountUp) : List Int :=
  if self.current ≥ self.stop then []
  else self.current :: CountUp.toList { self with current := self.current + 1 }
termination_by (self.stop - self.current).toNat
decreasing_by simp at *; omega

/-- The generator `count_up` (lines 54-59): `while current < end: yield
current; current += 1`, written as the list of all yielded values (what
`list(count_up(start, end))` collects). -/
def count_up (start stop : Int) : List Int :=
  if start < stop then start :: count_up (start + 1) stop
  else []
termination_by (stop - start).toNat
decreasing_by simp at *; omega

end Ch08

namespace Ch06

/-- A file-system effect of a module-level statement of
`book/code/ch06_file_io.py`: creation of a file or directory, or
recursive removal of a directory tree (`shutil.rmtree`, and the
deletion `tempfile.TemporaryDirectory` performs on context exit). -/
inductive FileEvent where
  | create (path : String)
  | removeTree (path : String)
  deriving Repr, DecidableEq

/-- The file system as the list of paths that currently exist. -/
abbrev FS := List String

/-- Apply one event: `create` adds the path; `removeTree d` removes `d`
and every path strictly below it. -/
def applyEvent (fs : FS) : FileEvent → FS
  | .create p => if fs.contains p then fs else fs ++ [p]
  | .removeTree d => fs.filter (fun p => !(p == d || strStartsWith p (d ++ "/")))

/-- Run a script's events over an initial file system. -/
def runEvents (fs : FS) (events : List FileEvent) : FS :=
  events.foldl applyEvent fs

/-- `tempfile.mkdtemp()` result bound to `temp_dir` (line 17): a fresh
directory under the system temp directory, here given the symbolic name
`/tmp/demo_dir`. -/
def temp_dir : String := "/tmp/demo_dir"

/-- `sample_file = temp_dir / "sample.txt"` (line 26). -/
def sample_file : String := temp_dir ++ "/sample.txt"

/-- `pathlib_file = temp_dir / "pathlib_test.txt"` (line 71). -/
def pathlib_file : String := temp_dir ++ "/pathlib_test.txt"

/-- `json_file = temp_dir / "data.json"` (line 88). -/
def json_file : String := temp_dir ++ "/data.json"

/-- `csv_file = temp_dir / "people.csv"` (line 113). -/
def csv_file : String := temp_dir ++ "/people.csv"

/-- `binary_file = temp_dir / "binary.dat"` (line 133). -/
def binary_file : String := temp_dir ++ "/binary.dat"

/-- The file created by `tempfile.NamedTemporaryFile(mode="w",
suffix=".txt", delete=False)` in section 6.6 (line 149): a fresh `.txt`
file directly under the system temp directory — outside `temp_dir`. -/
def named_temp_file : String := "/tmp/named_demo.txt"

/-- The directory created by `tempfile.TemporaryDirectory()` in section
6.6 (line 153), deleted when its `with` block exits. -/
def context_temp_dir : String := "/tmp/context_demo_dir"

/-- The file-system events of `book/code/ch06_file_io.py`, top to
bottom: `mkdtemp` (line 17); the five files written under `temp_dir`
(lines 27, 72, 89, 114, 135); the `NamedTemporaryFile` with
`delete=False` (line 149), whose context exit closes but does not
delete it; the `TemporaryDirectory` (line 153) and its deletion on
context exit; finally `shutil.rmtree(temp_dir)` (line 162). -/
def ch06_events : List FileEvent :=
  [.create temp_dir,
   .create sample_file,
   .create pathlib_file,
   .create json_file,
   .create csv_file,
   .create binary_file,
   .create named_temp_file,
   .create context_temp_dir,
   .removeTree context_temp_dir,
   .removeTree temp_dir]

/-- Every path the script creates. -/
def createdPaths : List String :=
  ch06_events.filterMap (fun e =>
    match e with
    | .create p => some p
    | .removeTree _ => none)

/-- The file system when the script ends, starting from one in which
none of the script's paths exist. -/
def finalState : FS := runEvents [] ch06_events

end Ch06

namespace Ch10

/-- `os.environ` as a finite association list from variable names to
values. -/
abbrev Env := List (String × String)

/-- An operation a script could perform on `os.environ`: a read with a
default (`os.environ.get(key, dflt)`), an assignment
(`os.environ[key] = value`), or a deletion (`del os.environ[key]`). -/
inductive EnvOp where
  | get (key dflt : String)
  | set (key value : String)
  | del (key : String)
  deriving Repr, DecidableEq

/-- Whether an operation is a read. -/
def EnvOp.isGet : EnvOp → Bool
  | .get _ _ => true
  | _ => false

/-- The variable name an operation touches. -/
def EnvOp.keyOf : EnvOp → String
  | .get k _ => k
  | .set k _ => k
  | .del k => k

/-- `os.environ.get(key, dflt)`. -/
def environGet (env : Env) (key dflt : String) : String :=
  match env.find? (fun p => p.1 == key) with
  | some p => p.2
  | none => dflt

/-- The effect of one operation on the environment mapping: a read
leaves it unchanged, an assignment or deletion rewrites it. -/
def applyEnvOp (env : Env) : EnvOp → Env
  | .get _ _ => env
  | .set k v => (k, v) :: env.filter (fun p => p.1 != k)
  | .del k => env.filter (fun p => p.1 != k)

/-- The environment mapping after a list of operations runs. -/
def runEnvOps (env : Env) (ops : List EnvOp) : Env :=
  ops.foldl applyEnvOp env

/-- The fifteen scripts of the repository: the eleven chapter scripts of
`book/code/` and the four exercise scripts of `book/exercises/`. -/
inductive Script where
  | ch01_fundamentals | ch02_data_structures | ch03_control_flow | ch04_oop
  | ch05_modules | ch06_file_io | ch07_errors | ch08_iterators
  | ch09_decorators | ch10_data | ch11_testing
  | ch01_exercises | ch02_exercises | ch03_exercises | ch04_exercises
  deriving Repr, DecidableEq

/-- The `os.environ` operations each script performs, in source order.
Only `ch10_data.py` mentions `os.environ` at all: section 10.6
(lines 200-211) performs two reads with defaults (`DATABASE_URL`,
`DEBUG`) and then reads `HOME`, `PATH`, `USER` in a loop, each via
`os.environ.get` with default `"Not set"`.  No script assigns to or
deletes from `os.environ` (`ch05_modules.py` uses `os` only for
`getcwd`/`listdir`; no other file imports `os`). -/
def envOps : Script → List EnvOp
  | .ch10_data =>
    [.get "DATABASE_URL" "sqlite:///default.db",
     .get "DEBUG" "false",
     .get "HOME" "Not set",
     .get "PATH" "Not set",
     .get "USER" "Not set"]
  | _ => []

end Ch10

namespace Exercises

/-- A line of a source file: its 1-based line number and its text. -/
structure SourceLine where
  lineNumber : Nat
  text : String
  deriving Repr, DecidableEq

/-- The four exercise files of `book/exercises/`. -/
inductive ExerciseFile where
  | ch01 | ch02 | ch03 | ch04
  deriving Repr, DecidableEq

/-- All lines of each exercise file whose text mentions
`show_solutions` — these lists are complete: each file contains exactly
two such lines, the `def` line of the solutions function and the
commented-out call on the file's final code line
(ch01: 144 and 188; ch02: 119 and 236; ch03: 170 and 323;
ch04: 233 and 438). -/
def showSolutionsLines : ExerciseFile → List SourceLine
  | .ch01 => [⟨144, "def show_solutions():"⟩, ⟨188, "# show_solutions()"⟩]
  | .ch02 => [⟨119, "def show_solutions():"⟩, ⟨236, "# show_solutions()"⟩]
  | .ch03 => [⟨170, "def show_solutions():"⟩, ⟨323, "# show_solutions()"⟩]
  | .ch04 => [⟨233, "def show_solutions():"⟩, ⟨438, "# show_solutions()"⟩]

/-- Whether a source line is a Python comment line (first non-blank
character is a hash), hence not executed. -/
def isCommentLine (s : String) : Bool :=
  match dropLeadingSpaces s.data with
  | [] => false
  | c :: _ => c == '#'

/-- Whether a source line is the definition header of the solutions
function. -/
def isDefShowSolutions (s : String) : Bool :=
  strStartsWith s "def show_solutions"

/-- The distinct function names invoked by module-level call statements
in each exercise file.  In every one of the four files each
module-level call statement (including those inside the two top-level
`for` loops, in ch01 line 74 and ch02 line 84) invokes `print`; every
other call expression sits inside a function body or a comment. -/
def toplevelCalledFunctions : ExerciseFile → List String
  | _ => ["print"]

end Exercises

/-! ## Helper lemmas -/

/-- Fully iterating a `CountUp` is exactly the drain of `CountUp.next`:
one call to `__next__`, then recurse on the advanced iterator. -/
theorem CountUp_toList_iterates_next (self : Ch08.CountUp) :
    self.toList =
      match self.next with
      | none => []
      | some (v, s) => v :: s.toList := by
  rw [Ch08.CountUp.toList]
  unfold Ch08.CountUp.next
  by_cases h : self.current ≥ self.stop
  · rw [if_pos h, if_pos h]
  · rw [if_neg h, if_neg h]

/-- The generator yields the arithmetic sequence
`start, start + 1, ..., end - 1`. -/
theorem count_up_eq_range (n : Nat) (s e : Int) (h : (e - s).toNat = n) :
    Ch08.count_up s e = (List.range n).map (fun i : ℕ => s + (i : ℤ)) := by
  induction n generalizing s with
  | zero =>
      have hlt : ¬ s < e := by omega
      rw [Ch08.count_up, if_neg hlt]
      rfl
  | succ k ih =>
      have hlt : s < e := by omega
      rw [Ch08.count_up, if_pos hlt, ih (s + 1) (by omega), List.range_succ_eq_map,
        List.map_cons, List.map_map]
      have hf : ((fun i : ℕ => s + (i : ℤ)) ∘ Nat.succ) =
          fun i : ℕ => s + 1 + (i : ℤ) := by
        funext i
        simp only [Function.comp_apply]
        push_cast
        ring
      rw [hf]
      norm_num

/-- The iterator class and the generator produce the same list. -/
theorem CountUp_toList_eq_count_up (n : Nat) (s e : Int) (h : (e - s).toNat = n) :
    Ch08.CountUp.toList ⟨s, e⟩ = Ch08.count_up s e := by
  induction n generalizing s with
  | zero =>
      have hge : s ≥ e := by omega
      have hnlt : ¬ s < e := by omega
      rw [Ch08.CountUp.toList, Ch08.count_up]
      simp [hge, hnlt]
  | succ k ih =>
      have hlt : s < e := by omega
      have hnge : ¬ s ≥ e := by omega
      rw [Ch08.CountUp.toList, Ch08.count_up]
      simp only [hlt, hnge, if_true, if_false, ite_true, ite_false]
      show s :: Ch08.CountUp.toList ⟨s + 1, e⟩ = s :: Ch08.count_up (s + 1) e
      exact congrArg (s :: ·) (ih (s + 1) (by omega))

/-! ## Claim theorems -/

set_option maxRecDepth 4000 in
/-- C1 counterexample: the claim that after the final cleanup step of
`ch06_file_io.py` no file created earlier in the script still exists is
false — the file created by `tempfile.NamedTemporaryFile(delete=False)`
in section 6.6 is created by the script and still exists on disk after
`shutil.rmtree(temp_dir)` runs, because it lives directly under the
system temp directory and nothing deletes it. -/
theorem C1_counterexample_named_tempfile_survives :
    Ch06.named_temp_file ∈ Ch06.createdPaths ∧
    Ch06.named_temp_file ∈ Ch06.finalState := by
  exact ⟨by decide, by decide⟩

set_option maxRecDepth 4000 in
/-- C1 (amended): after the final cleanup step of `ch06_file_io.py`,
every file and directory created earlier in the script has been deleted
except the file created via `tempfile.NamedTemporaryFile(...,
delete=False)` in section 6.6, which is the only created path still on
disk. -/
theorem C1_amended_cleanup_all_but_named_tempfile :
    Ch06.finalState = [Ch06.named_temp_file] ∧
    Ch06.createdPaths.all
      (fun p => (Ch06.finalState.contains p) == (p == Ch06.named_temp_file)) = true := by
  exact ⟨by decide, by decide⟩

/-- C2: `divide` raises `ValueError("Cannot divide by zero")` exactly
when its second argument is `0` and otherwise returns `a / b`; `add`
returns `a + b`, so the inlined assertions `add(2, 3) == 5` and
`add(-1, 1) == 0` both hold. -/
theorem C2_add_divide_spec (a b : ℚ) :
    (Ch11.divide a b = .error (.valueError "Cannot divide by zero") ↔ b = 0) ∧
    (b ≠ 0 → Ch11.divide a b = .ok (a / b)) ∧
    Ch11.add 2 3 = 5 ∧ Ch11.add (-1) 1 = 0 := by
  refine ⟨⟨fun h => ?_, fun h => by simp [Ch11.divide, h]⟩,
          fun h => by simp [Ch11.divide, h], rfl, rfl⟩
  by_contra hb
  simp [Ch11.divide, hb] at h

/-- Witness for C2 at concrete inputs: `divide 10 0` raises, `divide 10
2` returns `5`, `add 2 3 = 5`. -/
theorem C2_add_divide_spec_witness :
    Ch11.divide 10 0 = .error (.valueError "Cannot divide by zero") ∧
    Ch11.divide 10 2 = .ok 5 ∧
    Ch11.add 2 3 = 5 := by
  refine ⟨((C2_add_divide_spec 10 0).1).mpr rfl, ?_, (C2_add_divide_spec 10 0).2.2.1⟩
  have h := (C2_add_divide_spec 10 2).2.1 (by norm_num)
  have e : (10 : ℚ) / 2 = 5 := by norm_num
  rw [e] at h
  exact h

/-- C3: the C3 linearization of the diamond gives
`D.__mro__ = (D, B, C, A, object)`, cooperative `super()` dispatch makes
`D().method()` return `"D -> B -> C -> A"`, and each of the four class
definitions spans fewer than 30 source lines. -/
theorem C3_mro_diamond :
    Ch04.mro .D = some [.D, .B, .C, .A, .object] ∧
    Ch04.D_method_result = some "D -> B -> C -> A" ∧
    Ch04.classDefLineCount .A < 30 ∧ Ch04.classDefLineCount .B < 30 ∧
    Ch04.classDefLineCount .C < 30 ∧ Ch04.classDefLineCount .D < 30 := by
  exact ⟨by decide, by decide, by decide, by decide, by decide, by decide⟩

set_option maxRecDepth 4000 in
/-- C4: each of the five thunks of `demonstrate_exceptions` raises
exactly the exception kind it is paired with, so the `try`/`except
Exception` catches on every iteration and the function itself
propagates nothing: its outcome list is five `caught` results, each
carrying an exception whose class name equals the paired name. -/
theorem C4_demonstrate_exceptions_catches_all :
    Ch07.demonstrate_exceptions =
      [.caught "ZeroDivisionError" (.zeroDivisionError "division by zero"),
       .caught "IndexError" (.indexError "list index out of range"),
       .caught "KeyError" (.keyError "missing"),
       .caught "ValueError"
         (.valueError "invalid literal for int with base 10: abc"),
       .caught "TypeError" (.typeError "can only concatenate str to str")] ∧
    Ch07.demonstrate_exceptions.all
      (fun r =>
        match r with
        | .caught n e => Ch07.excClassName e == n
        | .noExc _ => false) = true := by
  exact ⟨by decide, by decide⟩

/-- C5: the hand-rolled iterator `CountUp` and the generator `count_up`
are equivalent: for all integers `start`, `end`, both yield exactly
`start, start + 1, ..., end - 1` (empty when `start ≥ end`), and both
iterations terminate (the Lean embeddings are total functions). -/
theorem C5_countup_iterator_generator_equiv (s e : Int) :
    Ch08.CountUp.toList ⟨s, e⟩ = Ch08.count_up s e ∧
    Ch08.count_up s e = (List.range (e - s).toNat).map (fun i : ℕ => s + (i : ℤ)) ∧
    (s ≥ e → Ch08.count_up s e = []) := by
  refine ⟨CountUp_toList_eq_count_up (e - s).toNat s e rfl,
          count_up_eq_range (e - s).toNat s e rfl, fun hge => ?_⟩
  have h0 : (e - s).toNat = 0 := by omega
  rw [count_up_eq_range (e - s).toNat s e rfl, h0]
  rfl

/-- Witness for C5 at concrete inputs: `CountUp(1, 5)` and
`count_up(1, 5)` both yield `[1, 2, 3, 4]`, and `count_up(5, 3)` is
empty. -/
theorem C5_countup_iterator_generator_equiv_witness :
    Ch08.CountUp.toList ⟨1, 5⟩ = [1, 2, 3, 4] ∧
    Ch08.count_up 1 5 = [1, 2, 3, 4] ∧
    Ch08.count_up 5 3 = [] := by
  have h1 := (C5_countup_iterator_generator_equiv 1 5).1
  have h2 := (C5_countup_iterator_generator_equiv 1 5).2.1
  have h3 := (C5_countup_iterator_generator_equiv 5 3).2.2 (by norm_num)
  refine ⟨?_, ?_, h3⟩
  · rw [h1, h2]; decide
  · rw [h2]; decide

/-- C6: each of the four exercise files defines `show_solutions()`, every
line mentioning it is either that definition or a comment line (so its
only call site is inside a comment), and the module-level call
statements of each file invoke only `print` — a normal top-to-bottom run
never invokes `show_solutions` and prints no solution output. -/
theorem C6_show_solutions_never_invoked (f : Exercises.ExerciseFile) :
    (Exercises.showSolutionsLines f).any
      (fun l => Exercises.isDefShowSolutions l.text) = true ∧
    (Exercises.showSolutionsLines f).all
      (fun l => Exercises.isDefShowSolutions l.text || Exercises.isCommentLine l.text)
      = true ∧
    (Exercises.toplevelCalledFunctions f).contains "show_solutions" = false := by
  cases f <;> exact ⟨by decide, by decide, by decide⟩

/-- C7: environment-variable use is a read-only lookup confined to
`ch10_data.py`: every script's `os.environ` operation list is empty
except that of `ch10_data`, whose five operations are all reads via
`os.environ.get` with defaults, for exactly the keys `DATABASE_URL`,
`DEBUG`, `HOME`, `PATH`, `USER`; running any script's operations leaves
every environment mapping unchanged. -/
theorem C7_environ_read_only :
    (∀ (f : Ch10.Script) (env : Ch10.Env), Ch10.runEnvOps env (Ch10.envOps f) = env) ∧
    (Ch10.envOps .ch10_data).all Ch10.EnvOp.isGet = true ∧
    (Ch10.envOps .ch10_data).map Ch10.EnvOp.keyOf =
      ["DATABASE_URL", "DEBUG", "HOME", "PATH", "USER"] ∧
    (∀ f : Ch10.Script, Ch10.envOps f = [] ∨ f = .ch10_data) := by
  refine ⟨fun f env => ?_, by decide, by decide, fun f => ?_⟩
  · cases f <;> rfl
  · cases f <;> simp [Ch10.envOps]

/-- C8: `BankAccount.withdraw` is atomic: with balance `B`, withdrawing
`a` raises `InsufficientFundsError` carrying `balance = B` and
`amount = a` exactly when `a > B`, leaving the balance at `B`; when
`a ≤ B` it returns `a` and leaves the balance at `B - a`. -/
theorem C8_withdraw_atomic (B a : ℚ) :
    (Ch07.BankAccount.withdraw ⟨B⟩ a = (.error ⟨B, a⟩, ⟨B⟩) ↔ a > B) ∧
    (a ≤ B → Ch07.BankAccount.withdraw ⟨B⟩ a = (.ok a, ⟨B - a⟩)) := by
  constructor
  · constructor
    · intro h
      by_contra hab
      simp [Ch07.BankAccount.withdraw, hab] at h
    · intro h
      simp [Ch07.BankAccount.withdraw, h]
  · intro h
    have hng : ¬ a > Ch07.BankAccount.balance ⟨B⟩ := not_lt.mpr h
    simp [Ch07.BankAccount.withdraw, hng]

/-- Witness for C8 at concrete inputs: withdrawing 150 from balance 100
raises with fields (100, 150) and leaves the balance at 100;
withdrawing 30 returns 30 and leaves the balance at 70. -/
theorem C8_withdraw_atomic_witness :
    Ch07.BankAccount.withdraw ⟨100⟩ 150 = (.error ⟨100, 150⟩, ⟨100⟩) ∧
    Ch07.BankAccount.withdraw ⟨100⟩ 30 = (.ok 30, ⟨70⟩) := by
  constructor
  · exact ((C8_withdraw_atomic 100 150).1).mpr (by norm_num)
  · have h := (C8_withdraw_atomic 100 30).2 (by norm_num)
    have e : (100 : ℚ) - 30 = 70 := by norm_num
    rw [e] at h
    exact h

/-- C9: on the empty list the first assertion of `calculate_average`
fails, raising `AssertionError("List cannot be empty")` before the
division is reached; on any non-empty list of ints and floats both
assertions succeed and the function returns
`sum(numbers) / len(numbers)`. -/
theorem C9_calculate_average_guarded (numbers : List PyVal) :
    Ch07.calculate_average [] = .error (.assertionError "List cannot be empty") ∧
    (numbers ≠ [] → numbers.all Ch07.isNumber = true →
      Ch07.calculate_average numbers =
        .ok ((numbers.map Ch07.numVal).sum / (numbers.length : ℚ))) := by
  refine ⟨rfl, fun hne hnum => ?_⟩
  have hlen : numbers.length > 0 := List.length_pos.mpr hne
  simp [Ch07.calculate_average, hlen, hnum]

/-- Witness for C9 at concrete inputs: the average of `[1, 2, 3]` is 2,
and the empty list raises the first assertion's error. -/
theorem C9_calculate_average_guarded_witness :
    Ch07.calculate_average [.intV 1, .intV 2, .intV 3] = .ok 2 ∧
    Ch07.calculate_average [] = .error (.assertionError "List cannot be empty") := by
  have h := (C9_calculate_average_guarded [.intV 1, .intV 2, .intV 3]).2
    (by decide) (by decide)
  have e : ((List.map Ch07.numVal [.intV 1, .intV 2, .intV 3]).sum /
      ((List.length [PyVal.intV 1, .intV 2, .intV 3] : ℕ) : ℚ)) = 2 := by
    simp [Ch07.numVal]
    norm_num
  rw [e] at h
  exact ⟨h, (C9_calculate_average_guarded []).1⟩

/-- C10: scalar multiplication of `Vector` commutes at the public
interface: `k * v` (via `__rmul__`, which delegates to `__mul__`) and
`v * k` (via `__mul__`) produce Vectors with identical `x` and `y`
components. -/
theorem C10_vector_scalar_mul_commutes (v : Ch04.Vector) (k : ℚ) :
    Ch04.Vector.rmul v k = Ch04.Vector.mul v k ∧
    (Ch04.Vector.rmul v k).x = (Ch04.Vector.mul v k).x ∧
    (Ch04.Vector.rmul v k).y = (Ch04.Vector.mul v k).y :=
  ⟨rfl, rfl, rfl⟩

end PyTutorial
